import Mathlib

/-!
Shallow embedding of the payment-submission workflow of the SecurePay demo
application (React frontend + Hono backend).

Sources embedded here:
- the Hono worker (`app.post "/api/transactions"`, `app.get "/api/transactions"`,
  `authMiddleware`, `PaymentSchema`, transaction-id generation);
- the React `PaymentForm` page (`validateForm`, `handleSubmit`,
  `handleConfirmPayment`, the payment summary, the SWIFT input's uppercasing
  `onChange`) and the `ConfirmDialog` component.

Modelling conventions:
- JavaScript numbers are idealized as exact rationals (`ℚ`); JSON payload
  numbers are decimal literals, which this idealization represents exactly.
- JavaScript strings are Lean `String`s; where character-level operations
  matter (the SWIFT regex, `toUpperCase`, `parseFloat`, `trim`) the string is
  viewed as its list of code points (`List Nat`).
- `Date.now()` is an arbitrary `Nat` millisecond clock passed into each
  handler; `Math.random().toString(36).substr(2, 6)` is modelled by the list
  of base-36 digits of the random draw's fractional expansion (as JS prints
  them), passed in as `List (Fin 36)`.
-/

namespace SecurePay

/- Batteries marks the `Rat` arithmetic `@[irreducible]`; re-enable unfolding
so that `decide` and `rfl` can evaluate the model on concrete inputs. -/
attribute [local semireducible] Rat.mul Rat.add Rat.sub Rat.inv

/-! ### Character classes and JS string primitives, at the code-point level -/

/-- Code point of an uppercase ASCII letter (the regex class `[A-Z]`). -/
def isUpperLetterN (n : Nat) : Bool := 65 ≤ n && n ≤ 90

/-- Code point of a lowercase ASCII letter (`[a-z]`). -/
def isLowerLetterN (n : Nat) : Bool := 97 ≤ n && n ≤ 122

/-- Code point of an ASCII digit (`[0-9]`). -/
def isDigitN (n : Nat) : Bool := 48 ≤ n && n ≤ 57

/-- The regex class `[A-Z0-9]`. -/
def isUpperAlnumN (n : Nat) : Bool := isUpperLetterN n || isDigitN n

/-- ASCII letter of either case. -/
def isLetterCIN (n : Nat) : Bool := isUpperLetterN n || isLowerLetterN n

/-- ASCII letter of either case, or digit. -/
def isAlnumCIN (n : Nat) : Bool := isLetterCIN n || isDigitN n

/-- JS `String.prototype.toUpperCase` on one code point (ASCII range; the
grammar classes below only involve ASCII, and non-ASCII points fail them
whether upper-cased or not). -/
def toUpperN (n : Nat) : Nat := if isLowerLetterN n then n - 32 else n

/-- ASCII whitespace recognised by JS `trim` / `parseFloat` skipping. -/
def isSpaceN (n : Nat) : Bool := n == 32 || (9 ≤ n && n ≤ 13)

/-- The code points of a Lean string. -/
def strCodes (s : String) : List Nat := s.toList.map Char.toNat

/-- JS `String.prototype.trim` on code points. -/
def trimCodes (l : List Nat) : List Nat :=
  ((l.dropWhile isSpaceN).reverse.dropWhile isSpaceN).reverse

/-! ### The SWIFT/BIC regex of `PaymentSchema` and of `validateForm`

Both the backend `PaymentSchema` and the frontend `validateForm` test
`/^[A-Z]{6}[A-Z0-9]{2}([A-Z0-9]{3})?$/`: a string of length 8 or 11 whose
first six characters are uppercase letters and whose remaining two (or five)
characters are uppercase alphanumerics. -/

/-- `/^[A-Z]{6}[A-Z0-9]{2}([A-Z0-9]{3})?$/` on a code-point list. -/
def swiftRegexAccepts (l : List Nat) : Bool :=
  (l.length == 8 || l.length == 11) &&
  ((l.take 6).all isUpperLetterN && (l.drop 6).all isUpperAlnumN)

/-- The backend SWIFT check on a string field. -/
def swiftMatch (s : String) : Bool := swiftRegexAccepts (strCodes s)

/-- The frontend `PaymentForm` stores the SWIFT input upper-cased
(`onChange` applies `e.target.value.toUpperCase()` before `handleInputChange`),
and `validateForm` then tests the stored value against the regex. -/
def frontendSwiftAccepts (raw : String) : Bool :=
  swiftRegexAccepts ((strCodes raw).map toUpperN)

/-- Modelled from the spec's words, for comparison with the code's validator:
the SWIFT/BIC 8/11-character grammar "4 letters (institution) + 2 letters
(country) + 2 alphanumerics (location) + optional 3 alphanumerics (branch)",
with letters of either case (the spec case-normalizes before matching). -/
def swiftGrammar (l : List Nat) : Bool :=
  (l.length == 8 || l.length == 11) &&
  ((l.take 6).all isLetterCIN && (l.drop 6).all isAlnumCIN)

/-- The spec grammar on a string. -/
def swiftGrammarStr (s : String) : Bool := swiftGrammar (strCodes s)

/-! ### The backend `PaymentSchema` validator -/

/-- zod `multipleOf(0.01)`: the amount is a whole number of minor units
(cents).  zod evaluates this with a decimal-string remainder
(`floatSafeRemainder`), which on decimal inputs is exactly "`amount * 100`
is an integer". -/
def isCentMultiple (q : ℚ) : Bool := (q * 100).den == 1

/-- One structured validation issue: the failing field and its message. -/
structure FieldError where
  field : String
  message : String
deriving DecidableEq, Repr

/-- The typed shape of a `PaymentSchema` payload (zod strips unknown keys, so
this is everything the handler ever sees). -/
structure Payment where
  amount : ℚ
  currency : String
  recipient_account : String
  swift_code : String
  reference : Option String
deriving DecidableEq, Repr

/-- `z.enum(["USD", "EUR", "ZAR", "GBP", "JPY"])`. -/
def supportedCurrencies : List String := ["USD", "EUR", "ZAR", "GBP", "JPY"]

/-- Issues of `amount: z.number().positive(...).multipleOf(0.01, ...)`; zod
runs both checks and collects both issues. -/
def amountIssues (a : ℚ) : List FieldError :=
  (if 0 < a then [] else [⟨"amount", "Amount must be positive"⟩]) ++
  (if isCentMultiple a then []
   else [⟨"amount", "Amount can have at most 2 decimal places"⟩])

/-- Issues of the currency enum (zod's default enum message, abbreviated). -/
def currencyIssues (c : String) : List FieldError :=
  if supportedCurrencies.contains c then [] else [⟨"currency", "Invalid enum value"⟩]

/-- Issues of `recipient_account: z.string().min(1, ...)`. -/
def recipientAccountIssues (s : String) : List FieldError :=
  if s.length < 1 then [⟨"recipient_account", "Recipient account is required"⟩] else []

/-- Issues of `swift_code: z.string().regex(..., "Invalid SWIFT code format")`. -/
def swiftCodeIssues (s : String) : List FieldError :=
  if swiftMatch s then [] else [⟨"swift_code", "Invalid SWIFT code format"⟩]

/-- All issues of `PaymentSchema` on a typed payload, in field order.
`reference: z.string().optional()` contributes none. -/
def validatePayment (p : Payment) : List FieldError :=
  amountIssues p.amount ++ currencyIssues p.currency ++
  recipientAccountIssues p.recipient_account ++ swiftCodeIssues p.swift_code

/-! ### Transaction-id generation

The template TXN + Date.now() + Math.random().toString(36).substr(2, 6).toUpperCase():
the literal "TXN", the decimal millisecond clock, then up to six base-36
digits of the random draw's fractional expansion, upper-cased.
`Math.random().toString(36)` prints `0.` followed by the (possibly empty,
trailing-zero-free) base-36 fraction digits; `substr(2, 6)` keeps at most the
first six of them. -/

/-- One base-36 digit as JS prints it, after `toUpperCase`. -/
def base36UpperChar (d : Fin 36) : Char :=
  "0123456789ABCDEFGHIJKLMNOPQRSTUVWXYZ".toList.getD d.val 'Z'

/-- The `substr(2, 6).toUpperCase()` suffix from the fraction digits. -/
def base36Suffix (rand : List (Fin 36)) : String :=
  String.mk ((rand.take 6).map base36UpperChar)

/-- The generated transaction id. -/
def mkTransactionId (now : Nat) (rand : List (Fin 36)) : String :=
  "TXN" ++ Nat.repr now ++ base36Suffix rand

/-! ### JSON values and the worker's request/response model -/

/-- JSON values (numbers idealized as rationals). -/
inductive Json where
  | jnull : Json
  | jbool : Bool → Json
  | jnum : ℚ → Json
  | jstr : String → Json
  | jarr : List Json → Json
  | jobj : List (String × Json) → Json

/-- Field lookup in a JSON object. -/
def jsonGet (j : Json) (k : String) : Option Json :=
  match j with
  | .jobj fields => fields.lookup k
  | _ => none

/-- An HTTP response: status code and JSON body. -/
structure Resp where
  code : Nat
  body : Json

/-- The hardcoded `mockUser` (its `created_at` is fixed once at module
initialization and inspected by no claim, so it is omitted). -/
structure User where
  id : String
  email : String
  given_name : String
deriving DecidableEq, Repr

/-- `const mockUser = { id: '1', email: 'user@example.com', ... }`. -/
def mockUser : User :=
  { id := "1", email := "user@example.com", given_name := "John" }

/-- JS truthiness of `getCookie(c, 'session_token')`: `undefined` when the
cookie is absent and its (possibly empty) string value when present; the
middleware's `if (sessionToken)` is false for both `undefined` and `""`. -/
def cookieTruthy (cookie : Option String) : Bool :=
  match cookie with
  | none => false
  | some v => !(v == "")

/-- `authMiddleware`: the user the request resolves to, if any.  Any truthy
cookie value resolves to the single hardcoded `mockUser`; otherwise the
middleware short-circuits with 401. -/
def authResolve (cookie : Option String) : Option User :=
  if cookieTruthy cookie then some mockUser else none

/-- The `{ error: "Unauthorized" }` body. -/
def unauthorizedBody : Json := .jobj [("error", .jstr "Unauthorized")]

/-- The server state visible to the worker: the D1 database binding
(`Env.DB`).  No transaction handler ever reads or writes it. -/
structure ServerState where
  db : List Json

/-- The fresh database. -/
def dbInit : ServerState := ⟨[]⟩

/-- `Date.prototype.toISOString` of the millisecond clock, abstracted to an
injective rendering; no claim inspects its text. -/
def isoString (ms : Nat) : String := Nat.repr ms

/-- The single mock row returned by `GET /api/transactions`. -/
def mockTransactionRow (uid : String) (now : Nat) : Json :=
  .jobj [("id", .jnum 1), ("user_id", .jstr uid),
         ("transaction_id", .jstr "TXN123456789"),
         ("amount", .jnum 1000), ("currency", .jstr "USD"),
         ("recipient_account", .jstr "12345678"),
         ("swift_code", .jstr "ABCDEF12"), ("status", .jstr "Sent"),
         ("reference", .jstr "Payment for services"),
         ("created_at", .jstr (isoString now)),
         ("updated_at", .jstr (isoString now))]

/-- `JSON.stringify` of the validated payload echoed back by the POST handler
(`undefined` reference omitted, as JS does). -/
def paymentJson (p : Payment) : Json :=
  .jobj ([("amount", .jnum p.amount), ("currency", .jstr p.currency),
          ("recipient_account", .jstr p.recipient_account),
          ("swift_code", .jstr p.swift_code)] ++
         (match p.reference with
          | some r => [("reference", .jstr r)]
          | none => []))

/-- The success body of `POST /api/transactions`:
`{ success: true, transaction_id: transactionId, data: paymentData }`. -/
def postSuccessBody (p : Payment) (now : Nat) (rand : List (Fin 36)) : Json :=
  .jobj [("success", .jbool true),
         ("transaction_id", .jstr (mkTransactionId now rand)),
         ("data", paymentJson p)]

/-- The 400 body produced by `zValidator` when `PaymentSchema` fails,
carrying every field-level issue. -/
def validationErrorBody (errs : List FieldError) : Json :=
  .jobj [("success", .jbool false),
         ("error", .jarr (errs.map (fun e =>
           Json.jobj [("path", .jstr e.field), ("message", .jstr e.message)])))]

/-- A request to one of the two transaction endpoints.  The POST body is the
typed `PaymentSchema` shape (zod strips unknown keys, so any extra field a
caller sends — an idempotency key included — never reaches the handler). -/
inductive Req where
  | getTransactions : Option String → Nat → Req
  | postTransaction : Option String → Payment → Nat → List (Fin 36) → Req

/-- One request through `authMiddleware` and the matching handler. -/
def serverStep (st : ServerState) (r : Req) : ServerState × Resp :=
  match r with
  | .getTransactions cookie now =>
      match authResolve cookie with
      | some u => (st, ⟨200, .jarr [mockTransactionRow u.id now]⟩)
      | none => (st, ⟨401, unauthorizedBody⟩)
  | .postTransaction cookie p now rand =>
      match authResolve cookie with
      | some _ =>
          if (validatePayment p).isEmpty then
            (st, ⟨200, postSuccessBody p now rand⟩)
          else (st, ⟨400, validationErrorBody (validatePayment p)⟩)
      | none => (st, ⟨401, unauthorizedBody⟩)

/-- A request sequence, threading the server state. -/
def serverRun (st : ServerState) (rs : List Req) : ServerState × List Resp :=
  match rs with
  | [] => (st, [])
  | r :: rest =>
      let s1 := serverStep st r
      let s2 := serverRun s1.1 rest
      (s2.1, s1.2 :: s2.2)

/-! ### JS `parseFloat`, for the frontend `validateForm`

`parseFloat` skips leading whitespace, then reads the longest prefix of the
form sign? (digits (. digits*)? | . digits+) ((e|E) sign? digits+)?; it is
NaN (here `none`) when no digits are read, and an invalid exponent part is
simply ignored.  (The `Infinity` literal is not modelled.) -/

/-- Numeric value of a list of decimal digit code points. -/
def decDigitsToNat (l : List Nat) : Nat :=
  l.foldl (fun a d => 10 * a + (d - 48)) 0

/-- The signed exponent after `e`/`E`, or 0 when its digits are missing. -/
def parseExpPart (r : List Nat) : ℤ :=
  match r with
  | 43 :: r2 =>
      let ds := r2.takeWhile isDigitN
      if ds.isEmpty then 0 else (decDigitsToNat ds : ℤ)
  | 45 :: r2 =>
      let ds := r2.takeWhile isDigitN
      if ds.isEmpty then 0 else -(decDigitsToNat ds : ℤ)
  | _ =>
      let ds := r.takeWhile isDigitN
      if ds.isEmpty then 0 else (decDigitsToNat ds : ℤ)

/-- JS `parseFloat` on code points; `none` models NaN. -/
def jsParseFloat (s : List Nat) : Option ℚ :=
  let l := s.dropWhile isSpaceN
  let sign : ℚ × List Nat :=
    match l with
    | 43 :: r => (1, r)
    | 45 :: r => (-1, r)
    | _ => (1, l)
  let ip := sign.2.takeWhile isDigitN
  let l2 := sign.2.dropWhile isDigitN
  let frac : List Nat × List Nat :=
    match l2 with
    | 46 :: r => (r.takeWhile isDigitN, r.dropWhile isDigitN)
    | _ => ([], l2)
  if ip.isEmpty && frac.1.isEmpty then none
  else
    let mant : ℚ :=
      sign.1 * ((decDigitsToNat ip : ℚ) +
                (decDigitsToNat frac.1 : ℚ) / ((10 : ℚ) ^ frac.1.length))
    let expo : ℤ :=
      match frac.2 with
      | 101 :: r => parseExpPart r
      | 69 :: r => parseExpPart r
      | _ => 0
    some (mant * (10 : ℚ) ^ expo)

/-! ### The `PaymentForm` page -/

/-- The `formData` state hook; field values are kept as code-point lists so
that the trimming, parsing and upper-casing the component performs on them
stay at one level. -/
structure FormData where
  amount : List Nat
  currency : List Nat
  recipient_account : List Nat
  swift_code : List Nat
  reference : List Nat
deriving DecidableEq, Repr

/-- The initial `useState` form: empty fields, currency "USD". -/
def initFormData : FormData :=
  { amount := [], currency := strCodes "USD", recipient_account := [],
    swift_code := [], reference := [] }

/-- `validateForm`'s error record, in source order: amount required /
positive-number, recipient account required, SWIFT required / format. -/
def validateFormErrors (f : FormData) : List (String × String) :=
  (if (trimCodes f.amount).isEmpty then [("amount", "Amount is required")]
   else
     match jsParseFloat f.amount with
     | none => [("amount", "Amount must be a positive number")]
     | some a =>
         if a ≤ 0 then [("amount", "Amount must be a positive number")] else []) ++
  (if (trimCodes f.recipient_account).isEmpty then
     [("recipient_account", "Recipient account is required")]
   else []) ++
  (if (trimCodes f.swift_code).isEmpty then
     [("swift_code", "SWIFT code is required")]
   else if swiftRegexAccepts f.swift_code then []
   else [("swift_code", "Invalid SWIFT code format")])

/-- The payment-summary transfer fee: `parseFloat(formData.amount) * 0.02`. -/
def transferFee (q : ℚ) : ℚ := q * (2 / 100)

/-- The payment-summary total: `parseFloat(formData.amount) * 1.02`. -/
def transferTotal (q : ℚ) : ℚ := q * (102 / 100)

/-- The body `handleConfirmPayment` posts: the form fields with the amount
parsed and an empty (falsy) reference replaced by `undefined`. -/
structure PostReq where
  amount : Option ℚ
  currency : List Nat
  recipient_account : List Nat
  swift_code : List Nat
  reference : Option (List Nat)
deriving DecidableEq, Repr

/-- `parsedData` of `handleConfirmPayment`. -/
def mkPostReq (f : FormData) : PostReq :=
  { amount := jsParseFloat f.amount, currency := f.currency,
    recipient_account := f.recipient_account, swift_code := f.swift_code,
    reference := if f.reference.isEmpty then none else some f.reference }

/-- The component's state hooks. -/
structure UIState where
  formData : FormData
  errors : List (String × String)
  showConfirmDialog : Bool
  showSuccessDialog : Bool
  transactionId : Option String
  errorMsg : Option String
  isLoading : Bool
deriving DecidableEq, Repr

/-- The initial mount state. -/
def initUIState : UIState :=
  { formData := initFormData, errors := [], showConfirmDialog := false,
    showSuccessDialog := false, transactionId := none, errorMsg := none,
    isLoading := false }

/-- A form field, for `handleInputChange`. -/
inductive FieldId where
  | amount | currency | recipientAccount | swiftCode | reference
deriving DecidableEq, Repr

/-- The key `handleInputChange` receives for a field. -/
def fieldName (fld : FieldId) : String :=
  match fld with
  | .amount => "amount"
  | .currency => "currency"
  | .recipientAccount => "recipient_account"
  | .swiftCode => "swift_code"
  | .reference => "reference"

/-- Store an input value; the SWIFT input's `onChange` upper-cases the value
before handing it to `handleInputChange`. -/
def setField (f : FormData) (fld : FieldId) (v : List Nat) : FormData :=
  match fld with
  | .amount => { f with amount := v }
  | .currency => { f with currency := v }
  | .recipientAccount => { f with recipient_account := v }
  | .swiftCode => { f with swift_code := v.map toUpperN }
  | .reference => { f with reference := v }

/-- `handleInputChange`: store the value, blank out that field's error, and
clear the general error banner. -/
def handleInput (s : UIState) (fld : FieldId) (v : List Nat) : UIState :=
  { s with
    formData := setField s.formData fld v,
    errors := s.errors.map (fun kv =>
      if kv.1 == fieldName fld then (kv.1, "") else kv),
    errorMsg := none }

/-- A user interaction with the page.  There is no timer in the component:
these are the only sources of state change, and each is an explicit user
action. -/
inductive UIEvent where
  | input : FieldId → List Nat → UIEvent
  | formSubmit : UIEvent
  | confirmAccept : UIEvent
  | confirmCancel : UIEvent
deriving DecidableEq, Repr

/-- One event: the new state and the `fetch("/api/transactions", POST)`
requests issued.  `formSubmit` is `handleSubmit` (validate, then open the
dialog); `confirmAccept` is the dialog's confirm button (`onConfirm()` then
`onClose()` — it exists only while the dialog is open); `confirmCancel` is
the cancel button / backdrop (`onClose` alone).  The fetch's asynchronous
completion (success dialog, form reset) happens outside this synchronous
step and issues no further request. -/
def uiStep (s : UIState) (e : UIEvent) : UIState × List PostReq :=
  match e with
  | .input fld v => (handleInput s fld v, [])
  | .formSubmit =>
      let errs := validateFormErrors s.formData
      if errs.isEmpty then
        ({ s with errors := [], showConfirmDialog := true }, [])
      else ({ s with errors := errs }, [])
  | .confirmAccept =>
      if s.showConfirmDialog then
        ({ s with isLoading := true, errorMsg := none,
                  showConfirmDialog := false }, [mkPostReq s.formData])
      else (s, [])
  | .confirmCancel => ({ s with showConfirmDialog := false }, [])

/-- An event sequence from a state, collecting all posted requests. -/
def uiRun (s : UIState) (es : List UIEvent) : UIState × List PostReq :=
  match es with
  | [] => (s, [])
  | e :: rest =>
      let s1 := uiStep s e
      let s2 := uiRun s1.1 rest
      (s2.1, s1.2 ++ s2.2)

/-! ### Demo inputs used by witnesses and counterexamples -/

/-- A payload passing every `PaymentSchema` check. -/
def validPayloadDemo : Payment :=
  ⟨1000, "USD", "12345678", "ABCDUS33", none⟩

/-- A payload whose amount 10.005 has three fractional digits. -/
def badPrecisionDemo : Payment :=
  ⟨2001/200, "USD", "12345678", "ABCDUS33", none⟩

/-- A payload whose recipient account is neither digit-only nor 8–12 long. -/
def nonDigitRecipientDemo : Payment :=
  ⟨100, "USD", "ABC", "ABCDUS33", none⟩

/-- A completely filled, valid form. -/
def filledFormDemo : FormData :=
  { amount := strCodes "1000", currency := strCodes "USD",
    recipient_account := strCodes "12345678",
    swift_code := strCodes "ABCDUS33", reference := [] }

/-- The mounted page with the valid form typed in. -/
def readyUIStateDemo : UIState := { initUIState with formData := filledFormDemo }

/-! ### Helper lemmas -/

/-- Upper-casing a code point lands in `[A-Z]` exactly for letters of either
case. -/
lemma isUpperLetterN_toUpperN (n : Nat) :
    isUpperLetterN (toUpperN n) = isLetterCIN n := by
  unfold toUpperN isLetterCIN
  split
  · rename_i h
    unfold isLowerLetterN at h
    unfold isUpperLetterN isLowerLetterN
    rw [Bool.eq_iff_iff]
    simp only [Bool.and_eq_true, Bool.or_eq_true, decide_eq_true_eq] at h ⊢
    omega
  · rename_i h
    unfold isLowerLetterN at h
    unfold isUpperLetterN isLowerLetterN
    rw [Bool.eq_iff_iff]
    simp only [Bool.and_eq_true, Bool.or_eq_true, decide_eq_true_eq] at h ⊢
    omega

/-- Upper-casing a code point lands in `[A-Z0-9]` exactly for alphanumerics
of either case. -/
lemma isUpperAlnumN_toUpperN (n : Nat) :
    isUpperAlnumN (toUpperN n) = isAlnumCIN n := by
  unfold toUpperN isAlnumCIN isLetterCIN
  split
  · rename_i h
    unfold isLowerLetterN at h
    unfold isUpperAlnumN isUpperLetterN isLowerLetterN isDigitN
    rw [Bool.eq_iff_iff]
    simp only [Bool.and_eq_true, Bool.or_eq_true, decide_eq_true_eq] at h ⊢
    omega
  · rename_i h
    unfold isLowerLetterN at h
    unfold isUpperAlnumN isUpperLetterN isLowerLetterN isDigitN
    rw [Bool.eq_iff_iff]
    simp only [Bool.and_eq_true, Bool.or_eq_true, decide_eq_true_eq] at h ⊢
    omega

/-- The code's check — upper-case, then the `[A-Z]`-only regex — coincides
with the case-insensitive SWIFT grammar. -/
lemma swiftRegexAccepts_map_toUpperN (l : List Nat) :
    swiftRegexAccepts (l.map toUpperN) = swiftGrammar l := by
  unfold swiftRegexAccepts swiftGrammar
  rw [List.length_map, ← List.map_take, ← List.map_drop,
      List.all_map, List.all_map]
  have h1 : (isUpperLetterN ∘ toUpperN) = isLetterCIN :=
    funext fun n => isUpperLetterN_toUpperN n
  have h2 : (isUpperAlnumN ∘ toUpperN) = isAlnumCIN :=
    funext fun n => isUpperAlnumN_toUpperN n
  rw [h1, h2]

/-- No handler touches the database binding. -/
lemma serverStep_fst (st : ServerState) (r : Req) : (serverStep st r).1 = st := by
  cases r <;> (unfold serverStep; repeat' split) <;> rfl

/-- No request sequence touches the database binding. -/
lemma serverRun_fst (st : ServerState) (rs : List Req) :
    (serverRun st rs).1 = st := by
  induction rs generalizing st with
  | nil => rfl
  | cons r rest ih => simp [serverRun, ih, serverStep_fst]

/-- An authenticated, schema-valid POST reaches the success branch. -/
lemma postTransaction_success (st : ServerState) (cookie : Option String)
    (p : Payment) (now : Nat) (rand : List (Fin 36))
    (hauth : cookieTruthy cookie = true)
    (hvalid : (validatePayment p).isEmpty = true) :
    serverStep st (.postTransaction cookie p now rand) =
      (st, ⟨200, postSuccessBody p now rand⟩) := by
  simp [serverStep, authResolve, hauth, hvalid]

/-! ### The claims -/

/-- Claim C1, counterexample: the same confirmed, schema-valid payload
submitted twice to POST /api/transactions (at clock values 1000 and 2000,
random fraction empty) yields responses reporting different transaction ids,
and the submission leaves the server state unchanged — the store stays empty,
so no single Transaction results either.  This refutes idempotent replay as
the claim states it. -/
theorem c1_replay_ids_differ :
    jsonGet (serverStep dbInit (.postTransaction (some "mock-session-token")
        validPayloadDemo 1000 [])).2.body "transaction_id" =
      some (.jstr "TXN1000") ∧
    jsonGet (serverStep dbInit (.postTransaction (some "mock-session-token")
        validPayloadDemo 2000 [])).2.body "transaction_id" =
      some (.jstr "TXN2000") ∧
    ("TXN1000" : String) ≠ "TXN2000" ∧
    (serverStep dbInit (.postTransaction (some "mock-session-token")
        validPayloadDemo 1000 [])).1 = dbInit ∧
    dbInit.db = [] :=
  ⟨rfl, rfl, by decide, rfl, rfl⟩

/-- Claim C1, amended: POST /api/transactions has no idempotency mechanism —
the handler persists nothing (the state is returned unchanged, so no
Transaction ever results), any idempotency key a caller supplies is stripped
by the schema before the handler runs, and the reported transaction id is
`mkTransactionId now rand`, a function of the submission clock and random
draw alone, so a replay of the same payload may receive a different id. -/
theorem c1_post_stateless_fresh_id
    (st : ServerState) (cookie : Option String) (p : Payment)
    (now : Nat) (rand : List (Fin 36))
    (hauth : cookieTruthy cookie = true)
    (hvalid : (validatePayment p).isEmpty = true) :
    serverStep st (.postTransaction cookie p now rand) =
      (st, ⟨200, postSuccessBody p now rand⟩) ∧
    jsonGet (postSuccessBody p now rand) "transaction_id" =
      some (.jstr (mkTransactionId now rand)) :=
  ⟨postTransaction_success st cookie p now rand hauth hvalid, rfl⟩

/-- Claim C1 witness: the amended statement at a concrete valid submission. -/
theorem c1_post_stateless_fresh_id_witness :
    serverStep dbInit (.postTransaction (some "mock-session-token")
        validPayloadDemo 1000 []) =
      (dbInit, ⟨200, postSuccessBody validPayloadDemo 1000 []⟩) ∧
    jsonGet (postSuccessBody validPayloadDemo 1000 []) "transaction_id" =
      some (.jstr (mkTransactionId 1000 [])) :=
  c1_post_stateless_fresh_id dbInit (some "mock-session-token")
    validPayloadDemo 1000 [] (by decide) (by decide)

/-- Claim C2, counterexample: a schema-valid request succeeds with code 200
but its receipt contains no "status" field at all — in particular no initial
status Pending — refuting the claim as stated. -/
theorem c2_receipt_has_no_status_field :
    (validatePayment validPayloadDemo).isEmpty = true ∧
    (serverStep dbInit (.postTransaction (some "mock-session-token")
        validPayloadDemo 1000 [])).2.code = 200 ∧
    jsonGet (serverStep dbInit (.postTransaction (some "mock-session-token")
        validPayloadDemo 1000 [])).2.body "status" = none :=
  ⟨by decide, rfl, rfl⟩

/-- Claim C2, amended: for every payment request that passes validation, the
submission operation returns a 200 receipt containing the newly generated
transaction id, a success flag and an echo of the validated payload — but no
status field (the Pending status of the claim appears nowhere). -/
theorem c2_receipt_shape
    (st : ServerState) (cookie : Option String) (p : Payment)
    (now : Nat) (rand : List (Fin 36))
    (hauth : cookieTruthy cookie = true)
    (hvalid : (validatePayment p).isEmpty = true) :
    (serverStep st (.postTransaction cookie p now rand)).2.code = 200 ∧
    jsonGet (serverStep st (.postTransaction cookie p now rand)).2.body
        "transaction_id" = some (.jstr (mkTransactionId now rand)) ∧
    jsonGet (serverStep st (.postTransaction cookie p now rand)).2.body
        "success" = some (.jbool true) ∧
    jsonGet (serverStep st (.postTransaction cookie p now rand)).2.body
        "data" = some (paymentJson p) ∧
    jsonGet (serverStep st (.postTransaction cookie p now rand)).2.body
        "status" = none := by
  rw [postTransaction_success st cookie p now rand hauth hvalid]
  exact ⟨rfl, rfl, rfl, rfl, rfl⟩

/-- Claim C2 witness: the amended statement at a concrete valid submission. -/
theorem c2_receipt_shape_witness :
    (serverStep dbInit (.postTransaction (some "mock-session-token")
        validPayloadDemo 2000 [])).2.code = 200 ∧
    jsonGet (serverStep dbInit (.postTransaction (some "mock-session-token")
        validPayloadDemo 2000 [])).2.body "transaction_id" =
      some (.jstr (mkTransactionId 2000 [])) ∧
    jsonGet (serverStep dbInit (.postTransaction (some "mock-session-token")
        validPayloadDemo 2000 [])).2.body "success" = some (.jbool true) ∧
    jsonGet (serverStep dbInit (.postTransaction (some "mock-session-token")
        validPayloadDemo 2000 [])).2.body "data" =
      some (paymentJson validPayloadDemo) ∧
    jsonGet (serverStep dbInit (.postTransaction (some "mock-session-token")
        validPayloadDemo 2000 [])).2.body "status" = none :=
  c2_receipt_shape dbInit (some "mock-session-token") validPayloadDemo 2000 []
    (by decide) (by decide)

/-- Claim C3: a submitted payment whose amount is not a whole number of minor
units (more than 2 fractional digits) is rejected with the precision message
"Amount can have at most 2 decimal places"; the response is the 400
validation failure, the state is unchanged (no Transaction is created) and
the error body carries no transaction id. -/
theorem c3_precision_reject
    (st : ServerState) (cookie : Option String) (p : Payment)
    (now : Nat) (rand : List (Fin 36))
    (hauth : cookieTruthy cookie = true)
    (hprec : isCentMultiple p.amount = false) :
    (FieldError.mk "amount" "Amount can have at most 2 decimal places") ∈
      validatePayment p ∧
    serverStep st (.postTransaction cookie p now rand) =
      (st, ⟨400, validationErrorBody (validatePayment p)⟩) ∧
    jsonGet (validationErrorBody (validatePayment p)) "transaction_id" =
      none := by
  have hmem : (FieldError.mk "amount" "Amount can have at most 2 decimal places") ∈
      validatePayment p := by
    unfold validatePayment amountIssues
    simp [hprec]
  refine ⟨hmem, ?_, rfl⟩
  have hne : (validatePayment p).isEmpty = false := by
    cases hval : validatePayment p with
    | nil => rw [hval] at hmem; cases hmem
    | cons a as => rfl
  simp [serverStep, authResolve, hauth, hne]

/-- Claim C3 witness: amount 10.005 at a concrete request. -/
theorem c3_precision_reject_witness :
    (FieldError.mk "amount" "Amount can have at most 2 decimal places") ∈
      validatePayment badPrecisionDemo ∧
    serverStep dbInit (.postTransaction (some "mock-session-token")
        badPrecisionDemo 0 []) =
      (dbInit, ⟨400, validationErrorBody (validatePayment badPrecisionDemo)⟩) ∧
    jsonGet (validationErrorBody (validatePayment badPrecisionDemo))
        "transaction_id" = none :=
  c3_precision_reject dbInit (some "mock-session-token") badPrecisionDemo 0 []
    (by decide) (by decide)

/-- Claim C4: every string outside the (case-insensitive) SWIFT/BIC 8/11
grammar is rejected by the form's SWIFT check, and the valid 8-character
lowercase code "abcdus33" is accepted after the input's upper-casing; the
backend regex accepts the normalized "ABCDUS33". -/
theorem c4_swift_grammar :
    (∀ raw : String, swiftGrammarStr raw = false →
       frontendSwiftAccepts raw = false) ∧
    frontendSwiftAccepts "abcdus33" = true ∧
    swiftMatch "ABCDUS33" = true := by
  refine ⟨?_, by decide, by decide⟩
  intro raw h
  unfold frontendSwiftAccepts
  rw [swiftRegexAccepts_map_toUpperN]
  exact h

/-- Claim C4 witness: the standalone rejection at the spec's example
"AB12". -/
theorem c4_swift_grammar_witness :
    swiftGrammarStr "AB12" = false ∧ frontendSwiftAccepts "AB12" = false :=
  ⟨by decide, c4_swift_grammar.1 "AB12" (by decide)⟩

/-- Claim C5, counterexample: the full validator accepts a payment whose
recipient account "ABC" contains non-digit characters and has length outside
8–12, refuting the digit-only bounded-length rule. -/
theorem c5_nondigit_recipient_accepted :
    validatePayment nonDigitRecipientDemo = [] ∧
    nonDigitRecipientDemo.recipient_account = "ABC" ∧
    ("ABC".toList.all Char.isDigit) = false ∧
    ¬ (8 ≤ "ABC".length ∧ "ABC".length ≤ 12) :=
  ⟨by decide, rfl, by decide, by decide⟩

/-- Claim C5, amended: the validator's recipient-account check is
`z.string().min(1)` alone — a recipient account is accepted exactly when it
is non-empty; no digit-only or length-range constraint applies (the 8–12
digit rule of the spec matches the profile schema's `account_number`, not the
payment's `recipient_account`). -/
theorem c5_recipient_nonempty_only :
    ∀ s : String, recipientAccountIssues s = [] ↔ 1 ≤ s.length := by
  intro s
  unfold recipientAccountIssues
  split
  · rename_i h
    simp only [List.cons_ne_nil, false_iff]
    omega
  · rename_i h
    simp only [true_iff]
    omega

/-- Claim C5 witness: the amended statement applied at "ABC". -/
theorem c5_recipient_nonempty_only_witness :
    recipientAccountIssues "ABC" = [] :=
  (c5_recipient_nonempty_only "ABC").mpr (by decide)

/-- Claim C6, counterexample: amount 0.01 is a valid amount (positive and a
whole number of minor units), yet the summary's computed fee 0.0002 is not a
whole number of minor units — so the fee computation cannot be, and is not,
integer minor-unit arithmetic (the source multiplies the parsed float by
0.02 directly). -/
theorem c6_fee_not_minor_unit_integer :
    (0 < (1 : ℚ)/100 ∧ isCentMultiple ((1 : ℚ)/100) = true) ∧
    transferFee ((1 : ℚ)/100) = 1/5000 ∧
    isCentMultiple (transferFee ((1 : ℚ)/100)) = false := by
  refine ⟨⟨by decide, by decide⟩, by decide, by decide⟩

/-- Claim C6, amended: the displayed summary computes the fee as
`amount * 0.02` and the total as `amount * 1.02` in ordinary numeric
arithmetic (not integer minor-unit arithmetic), so the fee is exactly 2% of
the principal and the total is principal plus fee; in particular, for amount
1000.00 the fee is 20.00 and the total is 1020.00. -/
theorem c6_fee_formula :
    (∀ q : ℚ, transferTotal q = q + transferFee q ∧ 50 * transferFee q = q) ∧
    transferFee 1000 = 20 ∧ transferTotal 1000 = 1020 := by
  refine ⟨fun q => ⟨?_, ?_⟩, by decide, by decide⟩
  · unfold transferTotal transferFee; ring
  · unfold transferFee; ring

/-- Claim C7: the page posts to /api/transactions only from the confirm
dialog's explicit confirm action while the dialog is open; the dialog opens
only by an explicit submit whose validation passed (never by default — it is
closed on mount — and there is no timer among the events); and declining
merely closes the dialog, changing nothing else and sending nothing. -/
theorem c7_confirm_gate :
    (∀ (s : UIState) (e : UIEvent), (uiStep s e).2 ≠ [] →
       e = UIEvent.confirmAccept ∧ s.showConfirmDialog = true) ∧
    (∀ (s : UIState) (e : UIEvent), s.showConfirmDialog = false →
       (uiStep s e).1.showConfirmDialog = true →
       e = UIEvent.formSubmit ∧ (validateFormErrors s.formData).isEmpty = true) ∧
    (∀ s : UIState, uiStep s UIEvent.confirmCancel =
       ({ s with showConfirmDialog := false }, [])) ∧
    initUIState.showConfirmDialog = false := by
  refine ⟨?_, ?_, fun s => rfl, rfl⟩
  · intro s e h
    cases e with
    | input fld v => simp [uiStep] at h
    | formSubmit =>
        simp only [uiStep] at h
        split at h <;> simp at h
    | confirmAccept =>
        simp only [uiStep] at h
        split at h
        · rename_i hs; exact ⟨rfl, hs⟩
        · simp at h
    | confirmCancel => simp [uiStep] at h
  · intro s e h0 h1
    cases e with
    | input fld v => simp [uiStep, handleInput, h0] at h1
    | formSubmit =>
        simp only [uiStep] at h1
        split at h1
        · rename_i hv; exact ⟨rfl, by simp [hv]⟩
        · simp [h0] at h1
    | confirmAccept =>
        simp only [uiStep] at h1
        split at h1
        · simp at h1
        · simp [h0] at h1
    | confirmCancel => simp [uiStep] at h1

/-- Claim C7 witness: submitting the filled valid form opens the dialog. -/
theorem c7_confirm_gate_witness :
    UIEvent.formSubmit = UIEvent.formSubmit ∧
    (validateFormErrors readyUIStateDemo.formData).isEmpty = true :=
  c7_confirm_gate.2.1 readyUIStateDemo UIEvent.formSubmit (by decide) (by decide)

/-- Claim C8, counterexample: a request whose session_token cookie is present
with the empty value is falsy under the middleware's truthiness test, so it
resolves to no user and is rejected 401 — contradicting "if the cookie is
present, regardless of its value, the resolved user is the mock user". -/
theorem c8_empty_cookie_unauthorized :
    cookieTruthy (some "") = false ∧
    authResolve (some "") = none ∧
    authResolve (some "") ≠ some mockUser ∧
    (serverStep dbInit (.getTransactions (some "") 0)).2.code = 401 :=
  ⟨rfl, rfl, by decide, rfl⟩

/-- Claim C8, amended: a request with the cookie absent (or present but
empty, hence falsy) fails 401 with the state untouched; any request with a
non-empty cookie value resolves to the single hardcoded mock user, so any
two requests differing only in their non-empty cookie values produce
identical outcomes, on GET and POST alike. -/
theorem c8_auth_mock :
    (∀ (st : ServerState) (now : Nat),
       serverStep st (.getTransactions none now) = (st, ⟨401, unauthorizedBody⟩)) ∧
    (∀ v : String, v ≠ "" → authResolve (some v) = some mockUser) ∧
    (∀ v w : String, v ≠ "" → w ≠ "" → ∀ (st : ServerState) (now : Nat),
       serverStep st (.getTransactions (some v) now) =
       serverStep st (.getTransactions (some w) now)) ∧
    (∀ v w : String, v ≠ "" → w ≠ "" →
       ∀ (st : ServerState) (p : Payment) (now : Nat) (rand : List (Fin 36)),
       serverStep st (.postTransaction (some v) p now rand) =
       serverStep st (.postTransaction (some w) p now rand)) := by
  have hres : ∀ v : String, v ≠ "" → authResolve (some v) = some mockUser := by
    intro v h
    have hv : (v == "") = false := by
      cases hb : v == "" with
      | true => exact absurd (by simpa using hb) h
      | false => rfl
    simp [authResolve, cookieTruthy, hv]
  refine ⟨fun st now => rfl, hres, ?_, ?_⟩
  · intro v w hv hw st now
    simp only [serverStep]
    rw [hres v hv, hres w hw]
  · intro v w hv hw st p now rand
    simp only [serverStep]
    rw [hres v hv, hres w hw]

/-- Claim C8 witness: two distinct non-empty cookie values are
interchangeable. -/
theorem c8_auth_mock_witness :
    authResolve (some "a") = some mockUser ∧
    serverStep dbInit (.getTransactions (some "a") 0) =
      serverStep dbInit (.getTransactions (some "b") 0) :=
  ⟨c8_auth_mock.2.1 "a" (by decide),
   c8_auth_mock.2.2.1 "a" "b" (by decide) (by decide) dbInit 0⟩

/-- Claim C9: no request changes the server state (the POST handler persists
nothing), so a GET /api/transactions after any request sequence answers
exactly as it would have before it, and that answer is the single fixed mock
transaction with transaction_id "TXN123456789", amount 1000.00 and status
"Sent". -/
theorem c9_frame :
    (∀ (st : ServerState) (r : Req), (serverStep st r).1 = st) ∧
    (∀ (st : ServerState) (rs : List Req), (serverRun st rs).1 = st) ∧
    (∀ (st : ServerState) (rs : List Req) (cookie : Option String) (now : Nat),
       serverStep (serverRun st rs).1 (.getTransactions cookie now) =
       serverStep st (.getTransactions cookie now)) ∧
    (∀ (st : ServerState) (cookie : Option String) (now : Nat),
       cookieTruthy cookie = true →
       (serverStep st (.getTransactions cookie now)).2 =
         ⟨200, Json.jarr [mockTransactionRow mockUser.id now]⟩) ∧
    (∀ now : Nat,
       jsonGet (mockTransactionRow mockUser.id now) "transaction_id" =
         some (.jstr "TXN123456789") ∧
       jsonGet (mockTransactionRow mockUser.id now) "amount" =
         some (.jnum 1000) ∧
       jsonGet (mockTransactionRow mockUser.id now) "status" =
         some (.jstr "Sent")) := by
  refine ⟨serverStep_fst, serverRun_fst, ?_, ?_, fun now => ⟨rfl, rfl, rfl⟩⟩
  · intro st rs cookie now
    rw [serverRun_fst]
  · intro st cookie now h
    simp [serverStep, authResolve, h]

/-- Claim C9 witness: the fixed GET answer at a concrete state and clock. -/
theorem c9_frame_witness :
    (serverStep dbInit (.getTransactions (some "mock-session-token") 7)).2 =
      ⟨200, Json.jarr [mockTransactionRow mockUser.id 7]⟩ :=
  c9_frame.2.2.2.1 dbInit (some "mock-session-token") 7 (by decide)

/-- Claim C10: every generated transaction id is "TXN", the decimal
millisecond clock, then an uppercase base-36 suffix of at most 6 characters;
the suffix can be shorter than 6 (empty when the random fraction is), so id
lengths vary; and distinct calls can collide (clock 12 with digits 3, 10
and clock 123 with digit 10 both give "TXN123A"), so ids are not guaranteed
unique. -/
theorem c10_txn_id_format :
    (∀ (now : Nat) (rand : List (Fin 36)),
       mkTransactionId now rand = "TXN" ++ Nat.repr now ++ base36Suffix rand ∧
       (base36Suffix rand).length ≤ 6 ∧
       (strCodes (base36Suffix rand)).all isUpperAlnumN = true) ∧
    (base36Suffix []).length = 0 ∧
    (mkTransactionId 5 []).length ≠ (mkTransactionId 5 [0, 0, 0, 0, 0, 0]).length ∧
    ((12 : Nat), ([3, 10] : List (Fin 36))) ≠ ((123 : Nat), ([10] : List (Fin 36))) ∧
    mkTransactionId 12 [3, 10] = mkTransactionId 123 [10] := by
  refine ⟨?_, by decide, by decide, by decide, by decide⟩
  intro now rand
  refine ⟨rfl, ?_, ?_⟩
  · show ((rand.take 6).map base36UpperChar).length ≤ 6
    rw [List.length_map, List.length_take]
    exact min_le_left _ _
  · show (((rand.take 6).map base36UpperChar).map Char.toNat).all isUpperAlnumN = true
    have hchar : ∀ d : Fin 36, isUpperAlnumN (base36UpperChar d).toNat = true := by
      decide
    apply List.all_eq_true.mpr
    intro x hx
    obtain ⟨c, hc, rfl⟩ := List.mem_map.mp hx
    obtain ⟨d, hd, rfl⟩ := List.mem_map.mp hc
    exact hchar d

end SecurePay
